import Mathlib

/-!
Verification of the lunch-coordinator-bot repository: a shallow embedding of
the poll-sender script (`main.py`) and the canteen bot (`bot_main.py`),
together with proofs about the claims of the design spec.
-/

namespace LunchBot

/-! ## Calendar dates (embedding of Python `datetime.date` arithmetic)

`main.py` computes `tomorrow = today + timedelta(days=1)`.  For naive
datetimes this advances the calendar date by exactly one day.  We model a
date as a year/month/day triple with the proleptic Gregorian calendar rules
used by `datetime` and show that the successor-date function advances the
ordinal-day number by exactly one. -/

structure Date where
  year : Nat
  month : Nat
  day : Nat
  deriving DecidableEq, Repr

/-- Gregorian leap-year rule, as in `datetime`. -/
def isLeapYear (y : Nat) : Bool :=
  y % 4 == 0 && (y % 100 != 0 || y % 400 == 0)

/-- Number of days in a month (months are 1-based). -/
def daysInMonth (y m : Nat) : Nat :=
  if m == 2 then (if isLeapYear y then 29 else 28)
  else if m == 4 || m == 6 || m == 9 || m == 11 then 30
  else 31

/-- Days in the months strictly before month `m` of year `y`. -/
def daysBeforeMonth (y : Nat) : Nat → Nat
  | 0 => 0
  | 1 => 0
  | m + 2 => daysBeforeMonth y (m + 1) + daysInMonth y (m + 1)

/-- Days in the years strictly before year `y` (`y ≥ 1`), as in
CPython's `_days_before_year`. -/
def daysBeforeYear (y : Nat) : Nat :=
  365 * (y - 1) + (y - 1) / 4 + (y - 1) / 400 - (y - 1) / 100

/-- Proleptic Gregorian ordinal of a date (Jan 1 of year 1 is day 1),
as in `datetime.date.toordinal`. -/
def toOrdinal (d : Date) : Nat :=
  daysBeforeYear d.year + daysBeforeMonth d.year d.month + d.day

/-- A valid calendar date. -/
def ValidDate (d : Date) : Prop :=
  1 ≤ d.year ∧ 1 ≤ d.month ∧ d.month ≤ 12 ∧ 1 ≤ d.day ∧ d.day ≤ daysInMonth d.year d.month

instance (d : Date) : Decidable (ValidDate d) := by
  unfold ValidDate; infer_instance

/-- Calendar successor of a date: the effect of `+ timedelta(days=1)`
on the date component. -/
def nextDay (d : Date) : Date :=
  if d.day < daysInMonth d.year d.month then ⟨d.year, d.month, d.day + 1⟩
  else if d.month < 12 then ⟨d.year, d.month + 1, 1⟩
  else ⟨d.year + 1, 1, 1⟩

/-! ## Poll sender (`main.py`) -/

/-- `tomorrow = today + timedelta(days=1)` in `main.py`. -/
def tomorrow (today : Date) : Date := nextDay today

/-- The fixed option list of the poll in `main.py`. -/
def pollOptions : List String :=
  ["11-12h", "12-13h", "13-14h", "14-15h", "later/other"]

/-- Outcome of the poll-sender script: process exit code and whether the
error body was printed. -/
structure PollSendOutcome where
  exitCode : Nat
  printedErrorBody : Bool
  deriving DecidableEq, Repr

/-- Embedding of the tail of `main.py`: on a non-200 response status the
script prints the error body and exits 1, otherwise it falls off the end of
the script and exits 0. -/
def sendPollOutcome (statusCode : Nat) : PollSendOutcome :=
  if statusCode != 200 then ⟨1, true⟩ else ⟨0, false⟩

/-! ### Calendar lemmas -/

theorem daysBeforeMonth_succ (y m : Nat) (h : 1 ≤ m) :
    daysBeforeMonth y (m + 1) = daysBeforeMonth y m + daysInMonth y m := by
  obtain ⟨k, rfl⟩ : ∃ k, m = k + 1 := ⟨m - 1, by omega⟩
  rfl

set_option maxHeartbeats 1000000 in
/-- The days-before-year count grows by 366 across a leap year and by 365
across a common year. -/
theorem daysBeforeYear_succ (y : Nat) (hy : 1 ≤ y) :
    daysBeforeYear (y + 1) = daysBeforeYear y + (if isLeapYear y then 366 else 365) := by
  obtain ⟨n, rfl⟩ : ∃ n, y = n + 1 := ⟨y - 1, by omega⟩
  cases c : isLeapYear (n + 1) with
  | true =>
    rw [if_pos rfl]
    simp only [isLeapYear, Bool.and_eq_true, Bool.or_eq_true, beq_iff_eq, bne_iff_ne,
      ne_eq] at c
    simp only [daysBeforeYear, Nat.add_sub_cancel]
    omega
  | false =>
    rw [if_neg (by simp)]
    simp only [isLeapYear, Bool.and_eq_false_iff, Bool.or_eq_false_iff, beq_eq_false_iff_ne,
      bne_eq_false_iff_eq, ne_eq] at c
    simp only [daysBeforeYear, Nat.add_sub_cancel]
    omega

/-- The last month plus its length exhausts the year. -/
theorem daysBeforeMonth_year_total (y : Nat) :
    daysBeforeMonth y 12 + daysInMonth y 12 = if isLeapYear y then 366 else 365 := by
  cases c : isLeapYear y <;>
    simp [daysBeforeMonth, daysInMonth, c]

/-- `nextDay` advances the proleptic Gregorian ordinal by exactly 1 on
every valid date. -/
theorem toOrdinal_nextDay (d : Date) (h : ValidDate d) :
    toOrdinal (nextDay d) = toOrdinal d + 1 := by
  obtain ⟨y, m, day⟩ := d
  obtain ⟨hy, hm1, hm2, hd1, hd2⟩ := h
  dsimp only at hy hm1 hm2 hd1 hd2
  unfold nextDay
  dsimp only
  by_cases c1 : day < daysInMonth y m
  · rw [if_pos c1]
    rfl
  · rw [if_neg c1]
    have hde : day = daysInMonth y m := by omega
    by_cases c2 : m < 12
    · simp only [if_pos c2, toOrdinal]
      rw [daysBeforeMonth_succ y m hm1]
      omega
    · simp only [if_neg c2, toOrdinal]
      have hme : m = 12 := by omega
      subst hme
      rw [daysBeforeYear_succ y hy, ← daysBeforeMonth_year_total y]
      have h1 : daysBeforeMonth (y + 1) 1 = 0 := rfl
      omega

/-! ### Claims about the poll sender -/

/-- Claim C1: for every fixed value of today, the poll sender computes the
poll's date as exactly today plus one day (the ordinal-day number advances
by one), and the poll's option list is exactly the five fixed strings in
order. -/
theorem c1_poll_tomorrow_plus_one_and_fixed_options (today : Date)
    (h : ValidDate today) :
    toOrdinal (tomorrow today) = toOrdinal today + 1 ∧
    pollOptions = ["11-12h", "12-13h", "13-14h", "14-15h", "later/other"] :=
  ⟨toOrdinal_nextDay today h, rfl⟩

/-- Witness for claim C1 at the concrete date 2026-10-12. -/
theorem c1_poll_tomorrow_plus_one_and_fixed_options_witness :
    ValidDate ⟨2026, 10, 12⟩ ∧
    (toOrdinal (tomorrow ⟨2026, 10, 12⟩) = toOrdinal ⟨2026, 10, 12⟩ + 1 ∧
      pollOptions = ["11-12h", "12-13h", "13-14h", "14-15h", "later/other"]) :=
  ⟨by decide, c1_poll_tomorrow_plus_one_and_fixed_options ⟨2026, 10, 12⟩ (by decide)⟩

/-- Claim C6: the poll sender exits with status 1 and prints the error body
if and only if the HTTP status of the sendPoll POST is not 200; otherwise
(status exactly 200) it exits 0 without printing. -/
theorem c6_poll_sender_exit_codes (statusCode : Nat) :
    ((sendPollOutcome statusCode).exitCode = 1 ∧
        (sendPollOutcome statusCode).printedErrorBody = true ↔ statusCode ≠ 200) ∧
    ((sendPollOutcome statusCode).exitCode = 0 ∧
        (sendPollOutcome statusCode).printedErrorBody = false ↔ statusCode = 200) := by
  unfold sendPollOutcome
  by_cases c : statusCode = 200 <;> simp [c]

/-! ## String utilities shared by the bot handlers

Callback-data tokens are modelled as `List Char`.  `removeprefixL` is
Python's `str.removeprefix` (drop the prefix only when present) and
`splitOnChar` is Python's `str.split(sep)` for a one-character separator. -/

/-- Python `s.removeprefix(p)`: drop `p` from the front of `s` when `s`
starts with `p`, otherwise return `s` unchanged. -/
def removeprefixL (p s : List Char) : List Char :=
  if p.isPrefixOf s then s.drop p.length else s

/-- Python `s.split(sep)` for a single-character separator `c`. -/
def splitOnChar (c : Char) : List Char → List (List Char)
  | [] => [[]]
  | x :: xs =>
    if x = c then [] :: splitOnChar c xs
    else
      match splitOnChar c xs with
      | [] => [[x]]
      | r :: rs => (x :: r) :: rs

theorem splitOnChar_ne_nil (c : Char) (l : List Char) : splitOnChar c l ≠ [] := by
  cases l with
  | nil => simp [splitOnChar]
  | cons x xs =>
    unfold splitOnChar
    split
    · simp
    · split <;> simp

/-- The number of fragments produced by `splitOnChar` is one more than the
number of separator occurrences. -/
theorem splitOnChar_length (c : Char) (l : List Char) :
    (splitOnChar c l).length = l.count c + 1 := by
  induction l with
  | nil => simp [splitOnChar]
  | cons x xs ih =>
    unfold splitOnChar
    by_cases hx : x = c
    · subst hx
      simp [List.count_cons, ih]
    · rw [if_neg hx]
      rcases hr : splitOnChar c xs with _ | ⟨r, rs⟩
      · exact absurd hr (splitOnChar_ne_nil c xs)
      · have := ih
        rw [hr] at this
        simp only [List.length_cons] at this ⊢
        rw [List.count_cons]
        simp [hx, ← this]

/-- Joining the fragments with the separator restores the original list
(sanity check that `splitOnChar` is Python's `split`). -/
theorem splitOnChar_intercalate (c : Char) (l : List Char) :
    List.intercalate [c] (splitOnChar c l) = l := by
  induction l with
  | nil => simp [splitOnChar, List.intercalate]
  | cons x xs ih =>
    unfold splitOnChar
    by_cases hx : x = c
    · subst hx
      rcases hr : splitOnChar x xs with _ | ⟨r, rs⟩
      · exact absurd hr (splitOnChar_ne_nil x xs)
      · rw [hr] at ih
        simp only [List.intercalate, List.intersperse] at ih ⊢
        simp [ih]
    · rw [if_neg hx]
      rcases hr : splitOnChar c xs with _ | ⟨r, rs⟩
      · exact absurd hr (splitOnChar_ne_nil c xs)
      · rw [hr] at ih
        cases rs with
        | nil => simpa [List.intercalate] using congrArg (x :: ·) ih
        | cons r2 rs2 =>
          simp only [List.intercalate, List.intersperse] at ih ⊢
          simpa using congrArg (x :: ·) ih

/-! ## Restaurant data model (`bot_main.py`)

`KanttiinitRestaurantManager._load_restaurants` fetches `GET /areas`,
filters the areas named "Otaniemi", indexes `[0]` (an `IndexError` when no
such area exists, modelled as `none`) and builds a dict keyed by
`str(rest["id"])`.  Python dicts are modelled as association lists with
insertion-order semantics: inserting an existing key overwrites its value in
place, a new key is appended. -/

structure KanttiinitRestaurant where
  id : Nat
  name : String
  url : String
  address : String
  openingHours : List String
  deriving DecidableEq, Repr

structure Area where
  name : String
  restaurants : List KanttiinitRestaurant
  deriving DecidableEq, Repr

/-- Keys of an association list. -/
def dictKeys (m : List (String × KanttiinitRestaurant)) : List String :=
  m.map Prod.fst

/-- Python dict insertion: overwrite in place when the key exists, append
otherwise. -/
def dictInsert (m : List (String × KanttiinitRestaurant)) (k : String)
    (v : KanttiinitRestaurant) : List (String × KanttiinitRestaurant) :=
  if m.any (fun p => p.1 == k) then
    m.map (fun p => if p.1 == k then (k, v) else p)
  else
    m ++ [(k, v)]

/-- Build a Python dict from a list of key/value pairs (the dict
comprehension in `_load_restaurants`). -/
def dictOfList (l : List (String × KanttiinitRestaurant)) :
    List (String × KanttiinitRestaurant) :=
  l.foldl (fun m p => dictInsert m p.1 p.2) []

/-- Python dict lookup `m[k]`; `none` models the `KeyError` case. -/
def dictGet (m : List (String × KanttiinitRestaurant)) (k : String) :
    Option KanttiinitRestaurant :=
  (m.find? (fun p => p.1 == k)).map Prod.snd

/-- The first area named "Otaniemi" in the fetched `/areas` response
(`otamiemi_area[0]` in the source; `none` models the `IndexError`). -/
def otaniemiArea (areas : List Area) : Option Area :=
  (areas.filter (fun a => a.name == "Otaniemi")).head?

/-- Embedding of `KanttiinitRestaurantManager._load_restaurants`: the dict
`{str(rest["id"]): KanttiinitRestaurant(**rest) for rest in
otamiemi_area[0]["restaurants"]}`. -/
def loadRestaurants (areas : List Area) :
    Option (List (String × KanttiinitRestaurant)) :=
  (otaniemiArea areas).map
    (fun a => dictOfList (a.restaurants.map (fun r => (toString r.id, r))))

/-- State of the `RestaurantManager` singleton: the class attribute
`_rest`, initially the empty dict. -/
structure RMState where
  cache : List (String × KanttiinitRestaurant)
  deriving DecidableEq, Repr

/-- One call of `RestaurantManager.restaurants()`: when `_rest` is falsy
(the empty dict) it calls `_load_restaurants` with the current `/areas`
response, then returns `_rest`.  Result: the returned dict (`none` when the
load raises), the new state, and whether a load (an HTTP fetch) happened. -/
def restaurantsStep (areasResponse : List Area) (s : RMState) :
    Option (List (String × KanttiinitRestaurant)) × RMState × Bool :=
  if s.cache.isEmpty then
    match loadRestaurants areasResponse with
    | none => (none, s, true)
    | some m => (some m, ⟨m⟩, true)
  else
    (some s.cache, s, false)

/-- A process trace of `n` successive `restaurants()` calls, where
`fetch k` is the `/areas` response the canteen API would return to the
`k`-th call.  Returns the final state and the number of loads performed. -/
def runRestaurantsCalls (fetch : Nat → List Area) : Nat → RMState × Nat
  | 0 => (⟨[]⟩, 0)
  | n + 1 =>
    ((restaurantsStep (fetch n) (runRestaurantsCalls fetch n).1).2.1,
      (runRestaurantsCalls fetch n).2 +
        if (restaurantsStep (fetch n) (runRestaurantsCalls fetch n).1).2.2 then 1 else 0)

/-! ### Dict-construction lemmas -/

theorem any_key_iff (m : List (String × KanttiinitRestaurant)) (k : String) :
    m.any (fun p => p.1 == k) = true ↔ k ∈ dictKeys m := by
  rw [List.any_eq_true]
  unfold dictKeys
  rw [List.mem_map]
  constructor
  · rintro ⟨p, hp, he⟩
    exact ⟨p, hp, by simpa using he⟩
  · rintro ⟨p, hp, rfl⟩
    exact ⟨p, hp, by simp⟩

theorem dictKeys_dictInsert_mem (m : List (String × KanttiinitRestaurant))
    (k : String) (v : KanttiinitRestaurant) (h : m.any (fun p => p.1 == k) = true) :
    dictKeys (dictInsert m k v) = dictKeys m := by
  unfold dictInsert dictKeys
  rw [if_pos h, List.map_map]
  apply List.map_congr_left
  intro p hp
  simp only [Function.comp_apply]
  by_cases hk : p.1 = k
  · simp [hk]
  · simp [hk]

theorem dictKeys_dictInsert_new (m : List (String × KanttiinitRestaurant))
    (k : String) (v : KanttiinitRestaurant) (h : m.any (fun p => p.1 == k) = false) :
    dictKeys (dictInsert m k v) = dictKeys m ++ [k] := by
  unfold dictInsert dictKeys
  rw [if_neg (by simp [h])]
  simp

theorem mem_dictKeys_dictInsert (m : List (String × KanttiinitRestaurant))
    (k0 : String) (v : KanttiinitRestaurant) (k : String) :
    k ∈ dictKeys (dictInsert m k0 v) ↔ k ∈ dictKeys m ∨ k = k0 := by
  by_cases c : m.any (fun p => p.1 == k0) = true
  · rw [dictKeys_dictInsert_mem m k0 v c]
    have hk0 : k0 ∈ dictKeys m := (any_key_iff m k0).mp c
    constructor
    · exact Or.inl
    · rintro (h | rfl)
      · exact h
      · exact hk0
  · rw [dictKeys_dictInsert_new m k0 v (Bool.eq_false_iff.mpr c)]
    simp

theorem dictKeys_nodup_dictInsert (m : List (String × KanttiinitRestaurant))
    (k : String) (v : KanttiinitRestaurant) (h : (dictKeys m).Nodup) :
    (dictKeys (dictInsert m k v)).Nodup := by
  by_cases c : m.any (fun p => p.1 == k) = true
  · rw [dictKeys_dictInsert_mem m k v c]
    exact h
  · have c' : m.any (fun p => p.1 == k) = false := Bool.eq_false_iff.mpr c
    rw [dictKeys_dictInsert_new m k v c']
    refine h.append (List.nodup_singleton k) ?_
    rw [List.disjoint_singleton]
    intro hmem
    exact c ((any_key_iff m k).mpr hmem)

theorem dictOfList_foldl_keys (l : List (String × KanttiinitRestaurant)) :
    ∀ acc, (dictKeys acc).Nodup →
      (dictKeys (l.foldl (fun m p => dictInsert m p.1 p.2) acc)).Nodup ∧
      ∀ k, k ∈ dictKeys (l.foldl (fun m p => dictInsert m p.1 p.2) acc) ↔
        k ∈ dictKeys acc ∨ k ∈ l.map Prod.fst := by
  induction l with
  | nil =>
    intro acc hacc
    simpa using hacc
  | cons p l ih =>
    intro acc hacc
    simp only [List.foldl_cons]
    obtain ⟨ih1, ih2⟩ := ih (dictInsert acc p.1 p.2)
      (dictKeys_nodup_dictInsert acc p.1 p.2 hacc)
    refine ⟨ih1, fun k => ?_⟩
    rw [ih2 k, mem_dictKeys_dictInsert]
    simp only [List.map_cons, List.mem_cons]
    tauto

/-- The keys of a freshly built Python dict are unique and are exactly the
(distinct) keys of its input pairs. -/
theorem dictOfList_keys (l : List (String × KanttiinitRestaurant)) :
    (dictKeys (dictOfList l)).Nodup ∧
    ∀ k, k ∈ dictKeys (dictOfList l) ↔ k ∈ l.map Prod.fst := by
  have h := dictOfList_foldl_keys l [] (by simp [dictKeys])
  unfold dictOfList
  refine ⟨h.1, fun k => ?_⟩
  rw [h.2 k]
  simp [dictKeys]

/-! ### Memoization lemmas -/

/-- `restaurants()` on a non-empty cache: no load, cache returned
unchanged. -/
theorem restaurantsStep_cached (areas : List Area) (s : RMState)
    (h : s.cache ≠ []) :
    restaurantsStep areas s = (some s.cache, s, false) := by
  unfold restaurantsStep
  rw [if_neg (by simpa [List.isEmpty_iff] using h)]

/-- `restaurants()` on the initial empty cache performs a load. -/
theorem restaurantsStep_empty_load (areas : List Area)
    (m : List (String × KanttiinitRestaurant)) (h : loadRestaurants areas = some m) :
    restaurantsStep areas ⟨[]⟩ = (some m, ⟨m⟩, true) := by
  unfold restaurantsStep
  have hc : (RMState.mk [] : RMState).cache.isEmpty = true := rfl
  rw [if_pos hc, h]

/-! ### Claims about the restaurant map (memoization and immutability) -/

/-- A sample restaurant used in concrete witnesses. -/
def sampleRestaurant : KanttiinitRestaurant :=
  { id := 1, name := "Taffa", url := "https://example.org", address := "Otakaari 1",
    openingHours := ["10:45-13:15"] }

/-- A canteen API whose Otaniemi area always has an empty restaurant
list. -/
def fetchOtaniemiEmpty : Nat → List Area :=
  fun _ => [{ name := "Otaniemi", restaurants := [] }]

/-- A canteen API whose Otaniemi area always has one restaurant. -/
def fetchOtaniemiOne : Nat → List Area :=
  fun _ => [{ name := "Otaniemi", restaurants := [sampleRestaurant] }]

/-- A canteen API whose Otaniemi area is empty on the first request and
non-empty afterwards. -/
def fetchEmptyThenOne : Nat → List Area :=
  fun n =>
    if n = 0 then [{ name := "Otaniemi", restaurants := [] }]
    else [{ name := "Otaniemi", restaurants := [sampleRestaurant] }]

/-- Counterexample to claim C3 as stated: when the canteen API returns an
Otaniemi area with an empty restaurant list, the `if not cls._rest` check
stays falsy, so a process with two `restaurants()` calls performs two
loads — the map is not loaded at most once. -/
theorem c3_counterexample_two_loads :
    (runRestaurantsCalls fetchOtaniemiEmpty 2).2 = 2 ∧
    ¬((runRestaurantsCalls fetchOtaniemiEmpty 2).2 ≤ 1) ∧
    (restaurantsStep (fetchOtaniemiEmpty 1)
      (runRestaurantsCalls fetchOtaniemiEmpty 1).1).2.2 = true := by
  decide

/-- Claim C3 (amended): provided the first `restaurants()` call loads a
non-empty map, the map is loaded exactly once in the process, and every
later call returns the same map without triggering another load. -/
theorem c3_amended_memoized_after_nonempty_load (fetch : Nat → List Area)
    (m : List (String × KanttiinitRestaurant))
    (h1 : loadRestaurants (fetch 0) = some m) (h2 : m ≠ []) (n : Nat) (hn : 1 ≤ n) :
    runRestaurantsCalls fetch n = (⟨m⟩, 1) ∧
    restaurantsStep (fetch n) (runRestaurantsCalls fetch n).1 =
      (some m, ⟨m⟩, false) := by
  induction n with
  | zero => exact absurd hn (by omega)
  | succ k ih =>
    by_cases hk : 1 ≤ k
    · obtain ⟨ihr, _⟩ := ih hk
      have hstep := restaurantsStep_cached (fetch k) ⟨m⟩ h2
      have hrun : runRestaurantsCalls fetch (k + 1) = (⟨m⟩, 1) := by
        simp [runRestaurantsCalls, ihr, hstep]
      exact ⟨hrun, by rw [hrun]; exact restaurantsStep_cached (fetch (k + 1)) ⟨m⟩ h2⟩
    · have hk0 : k = 0 := by omega
      subst hk0
      have hload := restaurantsStep_empty_load (fetch 0) m h1
      have hrun : runRestaurantsCalls fetch 1 = (⟨m⟩, 1) := by
        simp [runRestaurantsCalls, hload]
      exact ⟨hrun, by rw [hrun]; exact restaurantsStep_cached (fetch 1) ⟨m⟩ h2⟩

/-- Witness for the amended claim C3 with a concrete one-restaurant API and
a two-call process. -/
theorem c3_amended_memoized_after_nonempty_load_witness :
    loadRestaurants (fetchOtaniemiOne 0) = some [("1", sampleRestaurant)] ∧
    ([("1", sampleRestaurant)] : List (String × KanttiinitRestaurant)) ≠ [] ∧
    (runRestaurantsCalls fetchOtaniemiOne 2 = (⟨[("1", sampleRestaurant)]⟩, 1) ∧
      restaurantsStep (fetchOtaniemiOne 2) (runRestaurantsCalls fetchOtaniemiOne 2).1 =
        (some [("1", sampleRestaurant)], ⟨[("1", sampleRestaurant)]⟩, false)) :=
  ⟨by decide, by decide,
    c3_amended_memoized_after_nonempty_load fetchOtaniemiOne
      [("1", sampleRestaurant)] (by decide) (by decide) 2 (by decide)⟩

/-- Counterexample to claim C7 as stated: the first `restaurants()` call
loads the map (an empty Otaniemi list gives an empty map), and the second
call re-loads and adds an entry — so a bot operation does add an entry
after the map was loaded. -/
theorem c7_counterexample_entry_added_after_load :
    (restaurantsStep (fetchEmptyThenOne 0) ⟨[]⟩).2.2 = true ∧
    (runRestaurantsCalls fetchEmptyThenOne 1).1.cache = [] ∧
    (runRestaurantsCalls fetchEmptyThenOne 2).1.cache = [("1", sampleRestaurant)] ∧
    ([] : List (String × KanttiinitRestaurant)) ≠ [("1", sampleRestaurant)] := by
  decide

/-- Claim C7 (amended): after a successful load the map's keys are exactly
the distinct canteen id strings of the fetched Otaniemi restaurants (keys
are unique), and once the loaded map is non-empty no later `restaurants()`
call modifies it. -/
theorem c7_amended_unique_keys_and_immutable_when_nonempty :
    (∀ areas a m, otaniemiArea areas = some a → loadRestaurants areas = some m →
      (dictKeys m).Nodup ∧
      ∀ k, k ∈ dictKeys m ↔ k ∈ a.restaurants.map (fun r => toString r.id)) ∧
    (∀ areas s, s.cache ≠ [] → restaurantsStep areas s = (some s.cache, s, false)) := by
  constructor
  · intro areas a m ha hm
    unfold loadRestaurants at hm
    rw [ha] at hm
    obtain rfl :
        dictOfList (a.restaurants.map fun r => (toString r.id, r)) = m :=
      Option.some.inj hm
    have h := dictOfList_keys (a.restaurants.map fun r => (toString r.id, r))
    refine ⟨h.1, fun k => ?_⟩
    rw [h.2 k, List.map_map]
    rfl
  · intro areas s h
    exact restaurantsStep_cached areas s h

/-- Witness for the amended claim C7 at a concrete area list and a concrete
non-empty cached state. -/
theorem c7_amended_unique_keys_and_immutable_when_nonempty_witness :
    ((dictKeys [("1", sampleRestaurant)]).Nodup ∧
      ∀ k, k ∈ dictKeys [("1", sampleRestaurant)] ↔
        k ∈ [sampleRestaurant].map (fun r => toString r.id)) ∧
    restaurantsStep [] ⟨[("1", sampleRestaurant)]⟩ =
      (some [("1", sampleRestaurant)], ⟨[("1", sampleRestaurant)]⟩, false) :=
  ⟨c7_amended_unique_keys_and_immutable_when_nonempty.1
      [{ name := "Otaniemi", restaurants := [sampleRestaurant] }]
      { name := "Otaniemi", restaurants := [sampleRestaurant] }
      [("1", sampleRestaurant)] (by decide) (by decide),
    c7_amended_unique_keys_and_immutable_when_nonempty.2 []
      ⟨[("1", sampleRestaurant)]⟩ (by decide)⟩

/-! ## Canteen picker keyboard (`generate_canteen_buttons`)

`rest` stands for `list(KanttiinitRestaurantManager.restaurants().values())`.
The source zips `rest[::2]` with `rest[1::2]` into two-button rows, appends
a single stretched button for `rest[-1]` when the count is odd, and always
appends a final one-button Cancel row. -/

structure InlineKeyboardButton where
  text : String
  callback_data : String
  deriving DecidableEq, Repr

/-- `generate_cancel_send_buttons` in the source: one row holding a Cancel
and a Send button with the given callback suffix. -/
def generate_cancel_send_buttons (callback_suffix : String) :
    List InlineKeyboardButton :=
  [⟨"Cancel", "cancel_" ++ callback_suffix⟩, ⟨"Send", "send_" ++ callback_suffix⟩]

/-- A canteen button: the restaurant's name, callback
`callback_prefix ++ "_" ++ id`. -/
def canteenButton ( callback_prefix : String) (r : KanttiinitRestaurant) :
    InlineKeyboardButton :=
  ⟨r.name, callback_prefix ++ "_" ++ toString r.id⟩

/-- Python slice `l[::2]`. -/
def evens : List α → List α
  | [] => []
  | [x] => [x]
  | x :: _ :: xs => x :: evens xs

/-- Python slice `l[1::2]`. -/
def odds (l : List α) : List α := evens l.tail

/-- Embedding of `generate_canteen_buttons`: paired rows from
`zip(rest[::2], rest[1::2])`, a stretched last-restaurant row when the
count is odd, then the Cancel row. -/
def generate_canteen_buttons ( callback_prefix : String)
    (rest : List KanttiinitRestaurant) : List (List InlineKeyboardButton) :=
  ((List.zip (evens rest) (odds rest)).map
      (fun p => [canteenButton callback_prefix p.1, canteenButton callback_prefix p.2]) ++
    (match rest.getLast? with
      | some r =>
        if rest.length % 2 = 1 then [[canteenButton callback_prefix r]] else []
      | none => [])) ++
  [[⟨"Cancel", "cancel"⟩]]

theorem dropLast_append_singleton {α : Type} (A : List α) (c : α) :
    (A ++ [c]).dropLast = A := by
  simp

/-- Counterexample to claim C4 as stated: for the even-length restaurant
list of two sample restaurants, the generated keyboard contains the final
one-button Cancel row, so not every row of the keyboard is paired. -/
theorem c4_counterexample_cancel_row_is_single :
    ([sampleRestaurant, { sampleRestaurant with id := 2 }] :
        List KanttiinitRestaurant).length % 2 = 0 ∧
    [(⟨"Cancel", "cancel"⟩ : InlineKeyboardButton)] ∈
      generate_canteen_buttons "menu_canteen"
        [sampleRestaurant, { sampleRestaurant with id := 2 }] ∧
    ([(⟨"Cancel", "cancel"⟩ : InlineKeyboardButton)]).length ≠ 2 := by
  decide

/-- Claim C4 (amended): among the restaurant rows — the keyboard minus its
final Cancel row — an odd-length restaurant list yields a final
single-column row holding the last restaurant, preceded only by paired
rows, and an even-length list yields only paired rows. -/
theorem c4_amended_restaurant_rows (cb : String)
    (rest : List KanttiinitRestaurant) :
    (rest.length % 2 = 1 →
      ∀ r, rest.getLast? = some r →
        ∃ pre, (generate_canteen_buttons cb rest).dropLast =
            pre ++ [[canteenButton cb r]] ∧
          ∀ row ∈ pre, row.length = 2) ∧
    (rest.length % 2 = 0 →
      ∀ row ∈ (generate_canteen_buttons cb rest).dropLast, row.length = 2) := by
  constructor
  · intro hodd r hr
    refine ⟨(List.zip (evens rest) (odds rest)).map
        (fun p => [canteenButton cb p.1, canteenButton cb p.2]), ?_, ?_⟩
    · unfold generate_canteen_buttons
      rw [hr]
      dsimp only
      rw [if_pos hodd, dropLast_append_singleton]
    · intro row hrow
      obtain ⟨p, _, rfl⟩ := List.mem_map.mp hrow
      rfl
  · intro heven row hrow
    unfold generate_canteen_buttons at hrow
    rw [dropLast_append_singleton] at hrow
    have hz : row ∈ (List.zip (evens rest) (odds rest)).map
        (fun p => [canteenButton cb p.1, canteenButton cb p.2]) := by
      rcases hl : rest.getLast? with _ | r
      · rw [hl] at hrow
        simpa using hrow
      · rw [hl] at hrow
        dsimp only at hrow
        rw [if_neg (by omega)] at hrow
        simpa using hrow
    obtain ⟨p, _, rfl⟩ := List.mem_map.mp hz
    rfl

/-- Witness for the amended claim C4 on a concrete three-element (odd)
restaurant list. -/
theorem c4_amended_restaurant_rows_witness :
    ([sampleRestaurant, { sampleRestaurant with id := 2 },
        { sampleRestaurant with id := 3 }] :
      List KanttiinitRestaurant).length % 2 = 1 ∧
    ∃ pre,
      (generate_canteen_buttons "menu_canteen"
          [sampleRestaurant, { sampleRestaurant with id := 2 },
            { sampleRestaurant with id := 3 }]).dropLast =
        pre ++ [[canteenButton "menu_canteen" { sampleRestaurant with id := 3 }]] ∧
      ∀ row ∈ pre, row.length = 2 :=
  ⟨by decide,
    (c4_amended_restaurant_rows "menu_canteen"
        [sampleRestaurant, { sampleRestaurant with id := 2 },
          { sampleRestaurant with id := 3 }]).1
      (by decide) { sampleRestaurant with id := 3 } (by decide)⟩

/-! ## Handler messages -/

/-- The day labels zipped with `rest.openingHours` in
`opening_hours_handler`. -/
def dayLabels : List String :=
  ["Mon", "Tue", "Wed", "Thu", "Fri", "Sat", "Sun"]

/-- The day lines the opening-hours loop appends: one line per element of
`zip(dayLabels, openingHours)`. -/
def openingHourLines (hours : List String) : List (List Char) :=
  (List.zip dayLabels hours).map (fun oh => (oh.1 ++ ": " ++ oh.2 ++ "\n").toList)

/-- Embedding of the message built by `opening_hours_handler`:
`<b>{name}</b>\n<code>` followed by the loop over
`zip(["Mon",...,"Sun"], rest.openingHours)`, then `</code>`. -/
def openingHoursMessage (rest : KanttiinitRestaurant) : List Char :=
  ((List.zip dayLabels rest.openingHours).foldl
      (fun acc oh => acc ++ (oh.1 ++ ": " ++ oh.2 ++ "\n").toList)
      ("<b>" ++ rest.name ++ "</b>\n<code>").toList) ++
    "</code>".toList

structure KanttiinitMenu where
  title : String
  properties : List String
  deriving DecidableEq, Repr

/-- The numbered menu lines of `_generate_message` (counter starts at 1,
titles are stripped). -/
def menuLines : Nat → List KanttiinitMenu → List Char
  | _, [] => []
  | counter, m :: ms =>
    (toString counter ++ ". " ++ m.title.trim ++ "\n").toList ++
      menuLines (counter + 1) ms

/-- Embedding of `_generate_message` in `menu_display_handler`. -/
def generateMenuMessage (name dateStr : String) (menus : List KanttiinitMenu) :
    List Char :=
  ("<b>" ++ name ++ " (" ++ dateStr ++ ")</b>\n" ++ "<code>").toList ++
    menuLines 1 menus ++ "</code>".toList

/-- Embedding of the `send_handler` reformatting: split the original
message on newlines, bold the first line and wrap the rest in a code
block. -/
def sendFormatted (origMsg : List Char) : List Char :=
  "<b>".toList ++ (splitOnChar '\n' origMsg).headD [] ++ "</b>\n<code>".toList ++
    List.intercalate ['\n'] (splitOnChar '\n' origMsg).tail ++ "</code>".toList

/-- Parse step of `menu_display_handler`:
`date, _id = query.data.removeprefix("menu_date_").split("|")`.  `none`
models the `ValueError` raised when the split does not give exactly two
parts. -/
def parseMenuDateToken (data : List Char) : Option (List Char × List Char) :=
  match splitOnChar '|' (removeprefixL "menu_date_".toList data) with
  | [d, i] => some (d, i)
  | _ => none

/-! ## Callback router and handlers

A handler's observable effect on the chat message, given the callback data
(`query.data`, known to be present).  `raiseError` models an unhandled
Python exception (`KeyError`, `ValueError`); `noHandler` means no
registered `CallbackQueryHandler` pattern matched, so nothing runs. -/

inductive BotAction where
  | noHandler
  | deleteMessage
  | editText (text : List Char)
  | raiseError
  deriving DecidableEq, Repr

/-- Environment of a callback dispatch: the loaded restaurant map, the menu
API responses, and the text of the message the button belongs to. -/
structure BotEnv where
  restMap : List (String × KanttiinitRestaurant)
  menus : String → String → List KanttiinitMenu
  origMsg : List Char

/-- `option_handler`: strip `option_`, dispatch to link / menu /
opening-hours, delete the message otherwise. -/
def option_handler (data : List Char) : BotAction :=
  if removeprefixL "option_".toList data = "link".toList then
    .editText "https://kanttiinit.fi".toList
  else if removeprefixL "option_".toList data = "menu".toList then
    .editText "<b>Menu</b>\nChoose the canteen:".toList
  else if removeprefixL "option_".toList data = "opening-hours".toList then
    .editText "<b>Opening Hours</b>\nChoose the canteen:".toList
  else
    .deleteMessage

/-- `opening_hours_handler`: look the canteen up in the restaurant map
(`KeyError` when absent) and edit the message to its opening hours. -/
def opening_hours_handler (env : BotEnv) (data : List Char) : BotAction :=
  match dictGet env.restMap (String.mk (removeprefixL "opening_hours_".toList data)) with
  | none => .raiseError
  | some r => .editText (openingHoursMessage r)

/-- `menu_date_pick_handler`: edit the message to the date-picker prompt. -/
def menu_date_pick_handler (_data : List Char) : BotAction :=
  .editText "<b>Menu date</b>\nChoose the date:".toList

/-- `menu_display_handler`: unpack `date|id` (`ValueError` when the split
is not exactly two parts), look the canteen up (`KeyError` when absent) and
edit the message to the generated menu. -/
def menu_display_handler (env : BotEnv) (data : List Char) : BotAction :=
  match parseMenuDateToken data with
  | none => .raiseError
  | some (d, i) =>
    match dictGet env.restMap (String.mk i) with
    | none => .raiseError
    | some r =>
      .editText (generateMenuMessage r.name (String.mk d)
        (env.menus (String.mk i) (String.mk d)))

/-- `send_handler`: reformat for `opening_hours`/`menu`, resend the text
for `link`, and fall back to the text `Command not found` otherwise. -/
def send_handler (env : BotEnv) (data : List Char) : BotAction :=
  if removeprefixL "send_".toList data = "opening_hours".toList ∨
      removeprefixL "send_".toList data = "menu".toList then
    .editText (sendFormatted env.origMsg)
  else if removeprefixL "send_".toList data = "link".toList then
    .editText env.origMsg
  else
    .editText "Command not found".toList

/-- `cancel_handler`: delete the message. -/
def cancel_handler : BotAction :=
  .deleteMessage

/-- The `CallbackQueryHandler` patterns registered in `main()`, in
registration order. -/
def routerPrefixes : List (List Char) :=
  ["option".toList, "opening_hours".toList, "menu_canteen".toList,
    "menu_date".toList, "menu_canteen_back".toList, "send".toList,
    "cancel".toList]

/-- The callback router: python-telegram-bot runs the first registered
handler whose pattern matches; all patterns here are `^prefix` regexes,
i.e. prefix tests.  When no pattern matches, no handler runs. -/
def dispatch (env : BotEnv) (data : List Char) : BotAction :=
  if List.isPrefixOf "option".toList data then option_handler data
  else if List.isPrefixOf "opening_hours".toList data then
    opening_hours_handler env data
  else if List.isPrefixOf "menu_canteen".toList data then
    menu_date_pick_handler data
  else if List.isPrefixOf "menu_date".toList data then
    menu_display_handler env data
  else if List.isPrefixOf "menu_canteen_back".toList data then
    option_handler data
  else if List.isPrefixOf "send".toList data then send_handler env data
  else if List.isPrefixOf "cancel".toList data then cancel_handler
  else .noHandler

/-- A concrete dispatch environment for witnesses and counterexamples. -/
def sampleEnv : BotEnv :=
  { restMap := [], menus := fun _ _ => [], origMsg := "x".toList }

/-! ### Claims about the callback router -/

/-- Claim C2: every callback token starting with `cancel` is routed to
`cancel_handler`, whose only effect is deleting the message (no edit). -/
theorem c2_cancel_prefix_always_deletes (env : BotEnv) (data : List Char)
    (h : List.isPrefixOf "cancel".toList data = true) :
    dispatch env data = .deleteMessage := by
  obtain ⟨t, rfl⟩ : ∃ t, "cancel".toList ++ t = data :=
    List.isPrefixOf_iff_prefix.mp h
  have h1 : List.isPrefixOf "option".toList ("cancel".toList ++ t) = false := rfl
  have h2 : List.isPrefixOf "opening_hours".toList ("cancel".toList ++ t) = false := rfl
  have h3 : List.isPrefixOf "menu_canteen".toList ("cancel".toList ++ t) = false := rfl
  have h4 : List.isPrefixOf "menu_date".toList ("cancel".toList ++ t) = false := rfl
  have h5 : List.isPrefixOf "menu_canteen_back".toList ("cancel".toList ++ t) = false := rfl
  have h6 : List.isPrefixOf "send".toList ("cancel".toList ++ t) = false := rfl
  have h7 : List.isPrefixOf "cancel".toList ("cancel".toList ++ t) = true := by
    simp [List.isPrefixOf]
  unfold dispatch
  rw [if_neg (by simp [h1]), if_neg (by simp [h2]), if_neg (by simp [h3]),
    if_neg (by simp [h4]), if_neg (by simp [h5]), if_neg (by simp [h6]),
    if_pos h7]
  rfl

/-- Witness for claim C2 on the canteen picker's bare `cancel` token. -/
theorem c2_cancel_prefix_always_deletes_witness :
    List.isPrefixOf "cancel".toList "cancel_opening_hours".toList = true ∧
    dispatch sampleEnv "cancel_opening_hours".toList = .deleteMessage :=
  ⟨by decide,
    c2_cancel_prefix_always_deletes sampleEnv "cancel_opening_hours".toList (by decide)⟩

/-- Counterexample to claim C5 as stated: the unrecognized `send_foo`
token does not delete the message — `send_handler` edits it to
`Command not found`; and a token matching no registered pattern is not
handled at all, so nothing (in particular no deletion) happens. -/
theorem c5_counterexample_unrecognized_not_deleted :
    dispatch sampleEnv "send_foo".toList = .editText "Command not found".toList ∧
    BotAction.editText "Command not found".toList ≠ BotAction.deleteMessage ∧
    dispatch sampleEnv "unknown".toList = .noHandler ∧
    BotAction.noHandler ≠ BotAction.deleteMessage := by
  refine ⟨by decide, by decide, by decide, by decide⟩

/-- Claim C5 (amended): an `option`-prefixed token whose stripped command
is unrecognized deletes the message; a `send`-prefixed token whose stripped
operation is unrecognized edits the message to `Command not found`; a token
matching no registered pattern is not handled at all. -/
theorem c5_amended_unrecognized_token_behaviour (env : BotEnv) (data : List Char) :
    (List.isPrefixOf "option".toList data = true →
      removeprefixL "option_".toList data ≠ "link".toList →
      removeprefixL "option_".toList data ≠ "menu".toList →
      removeprefixL "option_".toList data ≠ "opening-hours".toList →
      dispatch env data = .deleteMessage) ∧
    (List.isPrefixOf "send".toList data = true →
      removeprefixL "send_".toList data ≠ "opening_hours".toList →
      removeprefixL "send_".toList data ≠ "menu".toList →
      removeprefixL "send_".toList data ≠ "link".toList →
      dispatch env data = .editText "Command not found".toList) ∧
    ((∀ p ∈ routerPrefixes, List.isPrefixOf p data = false) →
      dispatch env data = .noHandler) := by
  refine ⟨?_, ?_, ?_⟩
  · intro hp h1 h2 h3
    obtain ⟨t, rfl⟩ : ∃ t, "option".toList ++ t = data :=
      List.isPrefixOf_iff_prefix.mp hp
    have hc : List.isPrefixOf "option".toList ("option".toList ++ t) = true := by
      simp [List.isPrefixOf]
    unfold dispatch
    rw [if_pos hc]
    unfold option_handler
    rw [if_neg h1, if_neg h2, if_neg h3]
  · intro hp h1 h2 h3
    obtain ⟨t, rfl⟩ : ∃ t, "send".toList ++ t = data :=
      List.isPrefixOf_iff_prefix.mp hp
    have g1 : List.isPrefixOf "option".toList ("send".toList ++ t) = false := rfl
    have g2 : List.isPrefixOf "opening_hours".toList ("send".toList ++ t) = false := rfl
    have g3 : List.isPrefixOf "menu_canteen".toList ("send".toList ++ t) = false := rfl
    have g4 : List.isPrefixOf "menu_date".toList ("send".toList ++ t) = false := rfl
    have g5 : List.isPrefixOf "menu_canteen_back".toList ("send".toList ++ t) = false := rfl
    have g6 : List.isPrefixOf "send".toList ("send".toList ++ t) = true := by
      simp [List.isPrefixOf]
    unfold dispatch
    rw [if_neg (by simp [g1]), if_neg (by simp [g2]), if_neg (by simp [g3]),
      if_neg (by simp [g4]), if_neg (by simp [g5]), if_pos g6]
    unfold send_handler
    rw [if_neg (not_or.mpr ⟨h1, h2⟩), if_neg h3]
  · intro hp
    have h1 := hp "option".toList (by simp [routerPrefixes])
    have h2 := hp "opening_hours".toList (by simp [routerPrefixes])
    have h3 := hp "menu_canteen".toList (by simp [routerPrefixes])
    have h4 := hp "menu_date".toList (by simp [routerPrefixes])
    have h5 := hp "menu_canteen_back".toList (by simp [routerPrefixes])
    have h6 := hp "send".toList (by simp [routerPrefixes])
    have h7 := hp "cancel".toList (by simp [routerPrefixes])
    unfold dispatch
    rw [if_neg (by rw [h1]; simp), if_neg (by rw [h2]; simp),
      if_neg (by rw [h3]; simp), if_neg (by rw [h4]; simp),
      if_neg (by rw [h5]; simp), if_neg (by rw [h6]; simp),
      if_neg (by rw [h7]; simp)]

/-- Witness for the amended claim C5 on three concrete tokens. -/
theorem c5_amended_unrecognized_token_behaviour_witness :
    dispatch sampleEnv "option_zzz".toList = .deleteMessage ∧
    dispatch sampleEnv "send_zzz".toList = .editText "Command not found".toList ∧
    dispatch sampleEnv "zzz".toList = .noHandler :=
  ⟨(c5_amended_unrecognized_token_behaviour sampleEnv "option_zzz".toList).1
      (by decide) (by decide) (by decide) (by decide),
    (c5_amended_unrecognized_token_behaviour sampleEnv "send_zzz".toList).2.1
      (by decide) (by decide) (by decide) (by decide),
    (c5_amended_unrecognized_token_behaviour sampleEnv "zzz".toList).2.2
      (by decide)⟩

/-! ### Claim C9: menu_date token parsing -/

/-- Claim C9: a `menu_date_`-prefixed token whose remainder does not
contain exactly one `|` separator makes `menu_display_handler` raise
(`ValueError` from the two-element unpacking); parsing succeeds exactly
when the remainder has one separator, and whenever parsing fails the
handler raises instead of deleting or replying. -/
theorem c9_menu_date_token_needs_exactly_one_separator (env : BotEnv)
    (data : List Char) :
    parseMenuDateToken "menu_date_2026-10-13".toList = none ∧
    menu_display_handler env "menu_date_2026-10-13".toList = .raiseError ∧
    ((parseMenuDateToken data).isSome = true ↔
      (removeprefixL "menu_date_".toList data).count '|' = 1) ∧
    (parseMenuDateToken data = none →
      menu_display_handler env data = .raiseError) := by
  refine ⟨by decide, ?_, ?_, ?_⟩
  · unfold menu_display_handler
    rw [(by decide : parseMenuDateToken "menu_date_2026-10-13".toList = none)]
  · have hlen := splitOnChar_length '|' (removeprefixL "menu_date_".toList data)
    unfold parseMenuDateToken
    rcases hs : splitOnChar '|' (removeprefixL "menu_date_".toList data)
      with _ | ⟨a, _ | ⟨b, _ | ⟨c, tl⟩⟩⟩
    · exact absurd hs (splitOnChar_ne_nil _ _)
    · rw [hs] at hlen
      simp at hlen ⊢
      omega
    · rw [hs] at hlen
      simp at hlen ⊢
      omega
    · rw [hs] at hlen
      simp at hlen ⊢
      omega
  · intro hn
    unfold menu_display_handler
    rw [hn]

/-- Witness for claim C9 on a token with two separators. -/
theorem c9_menu_date_token_needs_exactly_one_separator_witness :
    parseMenuDateToken "menu_date_a|b|c".toList = none ∧
    menu_display_handler sampleEnv "menu_date_a|b|c".toList = .raiseError :=
  ⟨by decide,
    (c9_menu_date_token_needs_exactly_one_separator sampleEnv
      "menu_date_a|b|c".toList).2.2.2 (by decide)⟩

/-! ### Claim C10: opening-hours day lines -/

theorem foldl_append_eq_flatten {α β : Type} (g : β → List α) (l : List β)
    (acc : List α) :
    l.foldl (fun a x => a ++ g x) acc = acc ++ (l.map g).flatten := by
  induction l generalizing acc with
  | nil => simp
  | cons x xs ih => simp [ih]

/-- Claim C10: the opening-hours message consists of exactly
`min 7 |openingHours|` day lines between the header and the footer; the
`i`-th line is labelled by the `i`-th of Mon..Sun, entries beyond the
seventh are dropped and missing entries produce no line. -/
theorem c10_opening_hours_day_lines (rest : KanttiinitRestaurant) :
    openingHoursMessage rest =
      ("<b>" ++ rest.name ++ "</b>\n<code>").toList ++
        (openingHourLines rest.openingHours).flatten ++ "</code>".toList ∧
    (openingHourLines rest.openingHours).length =
      min 7 rest.openingHours.length ∧
    ∀ (i : Nat) (lab h : String),
      dayLabels[i]? = some lab → rest.openingHours[i]? = some h →
      (openingHourLines rest.openingHours)[i]? =
        some (lab ++ ": " ++ h ++ "\n").toList := by
  refine ⟨?_, ?_, ?_⟩
  · unfold openingHoursMessage openingHourLines
    rw [foldl_append_eq_flatten
      (fun oh : String × String => (oh.1 ++ ": " ++ oh.2 ++ "\n").toList)
      (dayLabels.zip rest.openingHours)
      ("<b>" ++ rest.name ++ "</b>\n<code>").toList]
  · unfold openingHourLines
    rw [List.length_map, List.length_zip]
    rfl
  · intro i lab h hlab hh
    have hz : (List.zip dayLabels rest.openingHours)[i]? = some (lab, h) := by
      rw [List.getElem?_zip_eq_some]
      exact ⟨hlab, hh⟩
    unfold openingHourLines
    rw [List.getElem?_map, hz]
    rfl

/-- Witness for claim C10 on a concrete two-entry opening-hours list. -/
theorem c10_opening_hours_day_lines_witness :
    (openingHoursMessage sampleRestaurant =
      ("<b>" ++ sampleRestaurant.name ++ "</b>\n<code>").toList ++
        (openingHourLines sampleRestaurant.openingHours).flatten ++
        "</code>".toList) ∧
    (openingHourLines sampleRestaurant.openingHours).length =
      min 7 sampleRestaurant.openingHours.length ∧
    (openingHourLines sampleRestaurant.openingHours)[0]? =
      some ("Mon" ++ ": " ++ "10:45-13:15" ++ "\n").toList :=
  ⟨(c10_opening_hours_day_lines sampleRestaurant).1,
    (c10_opening_hours_day_lines sampleRestaurant).2.1,
    (c10_opening_hours_day_lines sampleRestaurant).2.2 0 "Mon" "10:45-13:15"
      (by decide) (by decide)⟩

/-! ### Claim C8: the default menu date is bound at module load -/

/-- Zero-padding to two digits, as in `datetime.date.__str__`. -/
def pad2 (n : Nat) : String :=
  if n < 10 then "0" ++ toString n else toString n

/-- Zero-padding to four digits, as in `datetime.date.__str__`. -/
def pad4 (n : Nat) : String :=
  if n < 10 then "000" ++ toString n
  else if n < 100 then "00" ++ toString n
  else if n < 1000 then "0" ++ toString n
  else toString n

/-- `str(date)`: ISO `YYYY-MM-DD`. -/
def isoDateStr (d : Date) : String :=
  pad4 d.year ++ "-" ++ pad2 d.month ++ "-" ++ pad2 d.day

/-- The `days` query parameter of `get_restaurant_menu`: the default value
`str(date.today())` is evaluated once, when the module is imported —
`moduleLoadDate` is the process start day, not the day of the call. -/
def get_restaurant_menu_days (moduleLoadDate : Date) (dArg : Option String) :
    String :=
  match dArg with
  | some s => s
  | none => isoDateStr moduleLoadDate

/-- Claim C8: a call without an explicit date queries the module-load day;
on the concrete later day 2026-10-13 (one day after a 2026-10-12 process
start) the queried date differs from the current day's date. -/
theorem c8_default_menu_date_is_module_load_day (moduleLoadDate : Date) :
    get_restaurant_menu_days moduleLoadDate none = isoDateStr moduleLoadDate ∧
    (∀ s, get_restaurant_menu_days moduleLoadDate (some s) = s) ∧
    (moduleLoadDate = ⟨2026, 10, 12⟩ →
      nextDay moduleLoadDate = ⟨2026, 10, 13⟩ ∧
      get_restaurant_menu_days moduleLoadDate none ≠
        isoDateStr (nextDay moduleLoadDate)) := by
  refine ⟨rfl, fun s => rfl, ?_⟩
  rintro rfl
  exact ⟨by decide, by decide⟩

/-- Witness for claim C8 at the module-load day 2026-10-12. -/
theorem c8_default_menu_date_is_module_load_day_witness :
    get_restaurant_menu_days ⟨2026, 10, 12⟩ none = isoDateStr ⟨2026, 10, 12⟩ ∧
    (nextDay ⟨2026, 10, 12⟩ = ⟨2026, 10, 13⟩ ∧
      get_restaurant_menu_days ⟨2026, 10, 12⟩ none ≠
        isoDateStr (nextDay ⟨2026, 10, 12⟩)) :=
  ⟨(c8_default_menu_date_is_module_load_day ⟨2026, 10, 12⟩).1,
    (c8_default_menu_date_is_module_load_day ⟨2026, 10, 12⟩).2.2 rfl⟩

end LunchBot
